import Mathlib

/-!
Shallow embedding of google/web-serial-polyfill (TypeScript).

The repository contains two generations of the design:
  * the legacy generation (`src/serial.ts`): flat lowercase option fields,
    five-valued parity, eager stream construction, a line-coding decoder
    (`readLineCoding`) as well as an encoder (`getLineCodingStructure`);
  * the canonical generation (the unnamed source file): camel-cased optional
    option fields, three-valued parity, lazily constructed streams, byte-level
    stream adapters (`UsbEndpointUnderlyingSource` / `Sink`).

JavaScript numbers are embedded as rationals (all values the code manipulates
are exact in binary floating point at the magnitudes involved), or as integers
where the surrounding code guarantees integrality.  `DataView.setUint32` /
`setUint8` coercions (ECMAScript ToUint32 / ToUint8: truncate toward zero,
then reduce modulo 2^32 / 2^8) are made explicit.  Byte buffers are lists of
naturals; a buffer produced by a `DataView` has every element below 256.
-/

/-- ECMAScript truncation toward zero of a rational number (`Int.tdiv` is
division truncating toward zero, matching the JavaScript semantics). -/
def jsTruncQ (q : ℚ) : ℤ :=
  q.num.tdiv q.den

/-- The JavaScript test `q % 1 === 0`: `q % 1` is the signed fractional part
`q - trunc q`, so the test holds exactly when `q` equals its truncation. -/
def jsMod1IsZero (q : ℚ) : Bool :=
  decide (q = (jsTruncQ q : ℚ))

/-- The JavaScript number literal `1.5`, as an exact rational. -/
def onePointFive : ℚ := ⟨3, 2, by decide, by decide⟩

/-- ECMAScript ToUint8 applied to an integer (`DataView.setUint8`). -/
def jsToUint8 (i : ℤ) : ℕ :=
  (i % 256).toNat

/-- ECMAScript ToUint32 applied to an integer (`DataView.setUint32`). -/
def jsToUint32 (i : ℤ) : ℕ :=
  (i % 4294967296).toNat

/-- `Array.prototype.indexOf`: index of the first occurrence, or -1. -/
def jsIndexOfAux [DecidableEq α] (x : α) : List α → ℤ → ℤ
  | [], _ => -1
  | a :: rest, k => if a = x then k else jsIndexOfAux x rest (k + 1)

/-- `Array.prototype.indexOf` starting the scan at index 0. -/
def jsIndexOf [DecidableEq α] (l : List α) (x : α) : ℤ :=
  jsIndexOfAux x l 0

/-- The four bytes written by `DataView.setUint32(0, n, true)` (little endian),
for `n` already reduced below 2^32. -/
def uint32LE (n : ℕ) : List ℕ :=
  [n % 256, n / 256 % 256, n / 65536 % 256, n / 16777216 % 256]

/-- The TypeScript `ParityType` union of the legacy generation; the canonical
generation uses only the first three values. -/
inductive ParityType where
  | none
  | even
  | odd
  | mark
  | space
deriving DecidableEq, Repr

namespace Legacy

/-- Table `kParityIndexMapping` of `src/serial.ts`. -/
def kParityIndexMapping : List ParityType :=
  [.none, .odd, .even, .mark, .space]

/-- Table `kStopbitsIndexMapping` of `src/serial.ts` (`[1, 1.5, 2]`). -/
def kStopbitsIndexMapping : List ℚ :=
  [1, onePointFive, 2]

/-- The line-coding-relevant fields of the legacy `SerialOptions` record.
The remaining fields (`buffersize`, `rtscts`, `xon`, `xoff`, `xany`) are never
read or written by the line-coding codec and are omitted.  `baudrate` and
`databits` are embedded as integers (the record is only ever populated with
integers: the constructor validates `baudrate % 1 === 0` and `databits` against
an integer table); `stopbits` ranges over rationals because the decoder can
produce 1.5. -/
structure SerialOptions where
  baudrate : ℤ
  databits : ℤ
  stopbits : ℚ
  parity : ParityType
deriving DecidableEq, Repr

/-- `SerialPort.getLineCodingStructure` of `src/serial.ts`: the 7-byte CDC
line-coding buffer (baud as little-endian u32, stop-bits table index, parity
table index, data bits verbatim). -/
def getLineCodingStructure (o : SerialOptions) : List ℕ :=
  uint32LE (jsToUint32 o.baudrate) ++
    [jsToUint8 (jsIndexOf kStopbitsIndexMapping o.stopbits),
     jsToUint8 (jsIndexOf kParityIndexMapping o.parity),
     jsToUint8 o.databits]

/-- `SerialPort.readLineCoding` of `src/serial.ts`: decodes a 7-byte buffer
(`DataView.getUint32(0, true)`, then bytes 4, 5, 6).  Out-of-table stop-bits
or parity codes fall back to 1 and `none`. -/
def readLineCoding (b : List ℕ) : SerialOptions :=
  { baudrate := (b.getD 0 0 + 256 * b.getD 1 0 + 65536 * b.getD 2 0 +
      16777216 * b.getD 3 0 : ℕ)
    stopbits :=
      if b.getD 4 0 < kStopbitsIndexMapping.length then
        kStopbitsIndexMapping.getD (b.getD 4 0) 1
      else 1
    parity :=
      if b.getD 5 0 < kParityIndexMapping.length then
        kParityIndexMapping.getD (b.getD 5 0) .none
      else .none
    databits := (b.getD 6 0 : ℕ) }

end Legacy

/-- ECMAScript ToUint32 of a rational (`DataView.setUint32` with a JavaScript
number): truncate toward zero, then reduce modulo 2^32. -/
def jsToUint32Q (q : ℚ) : ℕ :=
  (jsTruncQ q % 4294967296).toNat

/-! ## The canonical generation (the unnamed source file) -/

/-- `kSetLineCoding` (CDC Set Line Coding request code). -/
def kSetLineCoding : ℕ := 0x20

/-- `kSetControlLineState` (CDC Set Control Line State request code). -/
def kSetControlLineState : ℕ := 0x22

/-- `kSendBreak` (CDC Send Break request code). -/
def kSendBreak : ℕ := 0x23

/-- `kDefaultDataBits`. -/
def kDefaultDataBits : ℤ := 8

/-- `kDefaultParity`. -/
def kDefaultParity : ParityType := .none

/-- `kDefaultStopBits`. -/
def kDefaultStopBits : ℚ := 1

/-- `kAcceptableDataBits`. -/
def kAcceptableDataBits : List ℤ := [16, 8, 7, 6, 5]

/-- `kAcceptableStopBits`. -/
def kAcceptableStopBits : List ℚ := [1, 2]

/-- `kAcceptableParity` of the canonical generation. -/
def kAcceptableParity : List ParityType := [.none, .even, .odd]

/-- `kParityIndexMapping` of the canonical generation. -/
def kParityIndexMapping : List ParityType := [.none, .odd, .even]

/-- `kStopBitsIndexMapping` of the canonical generation (`[1, 1.5, 2]`). -/
def kStopBitsIndexMapping : List ℚ := [1, onePointFive, 2]

/-- The Web Serial `SerialOptions` dictionary as consumed by the canonical
generation: `baudRate` is required, the others optional (`none` models an
absent / `undefined` member).  `bufferSize` and `flowControl` are never read
by validation or line coding and are omitted. -/
structure SerialOptions where
  baudRate : ℚ
  dataBits : Option ℤ
  stopBits : Option ℚ
  parity : Option ParityType
deriving DecidableEq, Repr

/-- `SerialPort.isValidBaudRate`: `baudRate % 1 === 0`. -/
def isValidBaudRate (b : ℚ) : Bool :=
  jsMod1IsZero b

/-- `SerialPort.isValidDataBits`: `undefined` is accepted, otherwise membership
in `kAcceptableDataBits` (`Array.prototype.includes`). -/
def isValidDataBits : Option ℤ → Bool
  | Option.none => true
  | some d => decide (d ∈ kAcceptableDataBits)

/-- `SerialPort.isValidStopBits`: `undefined` is accepted, otherwise membership
in `kAcceptableStopBits`. -/
def isValidStopBits : Option ℚ → Bool
  | Option.none => true
  | some s => decide (s ∈ kAcceptableStopBits)

/-- `SerialPort.isValidParity`: `undefined` is accepted, otherwise membership
in `kAcceptableParity`. -/
def isValidParity : Option ParityType → Bool
  | Option.none => true
  | some p => decide (p ∈ kAcceptableParity)

/-- `SerialPort.validateOptions`: the four checks in source order; the first
failing check raises a `RangeError`. -/
def validateOptions (o : SerialOptions) : Except String Unit :=
  if !isValidBaudRate o.baudRate then .error "RangeError: invalid Baud Rate"
  else if !isValidDataBits o.dataBits then .error "RangeError: invalid dataBits"
  else if !isValidStopBits o.stopBits then .error "RangeError: invalid stopBits"
  else if !isValidParity o.parity then .error "RangeError: invalid parity"
  else .ok ()

/-- The 7-byte buffer built by `SerialPort.setLineCoding`: baud rate as
little-endian u32, then `kStopBitsIndexMapping.indexOf(stopBits ?? 1)`,
`kParityIndexMapping.indexOf(parity ?? 'none')`, and `dataBits ?? 8`. -/
def setLineCodingBuffer (o : SerialOptions) : List ℕ :=
  uint32LE (jsToUint32Q o.baudRate) ++
    [jsToUint8 (jsIndexOf kStopBitsIndexMapping (o.stopBits.getD kDefaultStopBits)),
     jsToUint8 (jsIndexOf kParityIndexMapping (o.parity.getD kDefaultParity)),
     jsToUint8 (o.dataBits.getD kDefaultDataBits)]

/-! ## WebUSB device state and the `open` sequence

The WebUSB device handle is external to the repository; its observable state
is modelled as the open flag, the selected configuration and the set of
claimed interfaces.  `USBDevice.close()` releases all claimed interfaces
(WebUSB semantics).  Each fallible step of `SerialPort.open`'s try-block is
given a success flag in `OpenEnv`, so one run of the model corresponds to one
behaviour of the underlying transport. -/

/-- Observable state of the WebUSB device handle. -/
structure DeviceState where
  opened : Bool
  configuration : Option ℕ
  claimed : List ℕ
deriving DecidableEq, Repr

/-- `USBDevice.close()`: the device is closed and all claimed interfaces are
released. -/
def deviceClose (st : DeviceState) : DeviceState :=
  { st with opened := false, claimed := [] }

/-- Success flags for the fallible device calls made inside the try-block of
`SerialPort.open`. -/
structure OpenEnv where
  openOk : Bool
  selectConfigurationOk : Bool
  claimControlOk : Bool
  claimTransferOk : Bool
  setLineCodingOk : Bool
  setSignalsOk : Bool
deriving DecidableEq, Repr

/-- The try-block of `SerialPort.open`: open the device, select configuration
1 if none is selected, claim the control interface, claim the transfer
interface if distinct, push the line coding, assert DTR.  Returns the device
state reached together with the raised error, if any. -/
def openTryBody (env : OpenEnv) (ctrlIface xferIface : ℕ) (st0 : DeviceState) :
    DeviceState × Option String :=
  if env.openOk = false then (st0, some "NetworkError: failed to open")
  else
    let st1 := { st0 with opened := true }
    if st1.configuration = Option.none ∧ env.selectConfigurationOk = false then
      (st1, some "NetworkError: selectConfiguration failed")
    else
      let st2 := if st1.configuration = Option.none then
        { st1 with configuration := some 1 } else st1
      if env.claimControlOk = false then
        (st2, some "NetworkError: claimInterface failed")
      else
        let st3 := { st2 with claimed := st2.claimed ++ [ctrlIface] }
        if ctrlIface ≠ xferIface ∧ env.claimTransferOk = false then
          (st3, some "NetworkError: claimInterface failed")
        else
          let st4 := if ctrlIface ≠ xferIface then
            { st3 with claimed := st3.claimed ++ [xferIface] } else st3
          if env.setLineCodingOk = false then
            (st4, some "NetworkError: Failed to set line coding.")
          else if env.setSignalsOk = false then
            (st4, some "NetworkError: controlTransferOut failed")
          else (st4, Option.none)

/-- The try/catch of `SerialPort.open`: on any error raised by the try-block,
close the device if it is open, then rethrow the error wrapped in
`Error('Error setting up device: ' + error)`. -/
def openDeviceSequence (env : OpenEnv) (ctrlIface xferIface : ℕ)
    (st : DeviceState) : DeviceState × Except String Unit :=
  match openTryBody env ctrlIface xferIface st with
  | (st1, Option.none) => (st1, .ok ())
  | (st1, some e) =>
    let st2 := if st1.opened then deviceClose st1 else st1
    (st2, .error ("Error setting up device: " ++ e))

/-- `SerialPort.open(options)` as a whole: `validateOptions` runs synchronously
before the try-block, so a validation failure reaches no device call. -/
def openFull (env : OpenEnv) (ctrlIface xferIface : ℕ) (o : SerialOptions)
    (st : DeviceState) : DeviceState × Except String Unit :=
  match validateOptions o with
  | .error e => (st, .error e)
  | .ok _ => openDeviceSequence env ctrlIface xferIface st

/-- Some step of the try-block of `SerialPort.open` fails in environment
`env`, starting from device state `st` (the configuration-selection step only
runs when no configuration is selected; the transfer-interface claim only runs
when the interfaces are distinct). -/
def someOpenStepFails (env : OpenEnv) (ctrlIface xferIface : ℕ)
    (st : DeviceState) : Prop :=
  env.openOk = false ∨
  (st.configuration = Option.none ∧ env.selectConfigurationOk = false) ∨
  env.claimControlOk = false ∨
  (ctrlIface ≠ xferIface ∧ env.claimTransferOk = false) ∨
  env.setLineCodingOk = false ∨
  env.setSignalsOk = false

instance (env : OpenEnv) (c x : ℕ) (st : DeviceState) :
    Decidable (someOpenStepFails env c x st) := by
  unfold someOpenStepFails; infer_instance

/-! ## USB descriptor tree and interface/endpoint discovery -/

/-- A USB transfer direction. -/
inductive USBDirection where
  | dirIn
  | dirOut
deriving DecidableEq, Repr

/-- Rendering of a `USBDirection` used in the endpoint-not-found message. -/
def dirString : USBDirection → String
  | .dirIn => "in"
  | .dirOut => "out"

/-- A `USBEndpoint` descriptor (the fields the repository reads). -/
structure USBEndpoint where
  endpointNumber : ℕ
  direction : USBDirection
  packetSize : ℕ
deriving DecidableEq, Repr

/-- A `USBAlternateInterface` descriptor. -/
structure USBAlternateInterface where
  interfaceClass : ℕ
  endpoints : List USBEndpoint
deriving DecidableEq, Repr

/-- A `USBInterface` descriptor. -/
structure USBInterface where
  interfaceNumber : ℕ
  alternates : List USBAlternateInterface
deriving DecidableEq, Repr

/-- A `USBConfiguration` descriptor. -/
structure USBConfiguration where
  interfaces : List USBInterface
deriving DecidableEq, Repr

/-- The descriptor tree of a `USBDevice` (the only part the discovery
functions read). -/
structure USBDevice where
  configurations : List USBConfiguration
deriving DecidableEq, Repr

/-- An interface matches in the canonical `findInterface` when its first
alternate setting declares the wanted class (`iface.alternates[0]`). -/
def firstAltClassMatches (classCode : ℕ) (i : USBInterface) : Bool :=
  match i.alternates with
  | [] => false
  | a :: _ => a.interfaceClass == classCode

/-- The interface-not-found message of `findInterface`. -/
def interfaceNotFoundMsg (classCode : ℕ) : String :=
  "TypeError: Unable to find interface with class " ++ toString classCode ++ "."

/-- Loop body of the canonical `findInterface`: scan the interfaces in
declared order; reading `alternates[0].interfaceClass` of an interface with no
alternates throws a TypeError in JavaScript (modelled as a distinct error). -/
def findInterfaceLoop (classCode : ℕ) : List USBInterface →
    Except String USBInterface
  | [] => .error (interfaceNotFoundMsg classCode)
  | i :: rest =>
    match i.alternates with
    | [] => .error "TypeError: cannot read properties of undefined"
    | a :: _ =>
      if a.interfaceClass == classCode then .ok i
      else findInterfaceLoop classCode rest

/-- The canonical `findInterface`: scans `device.configurations[0]`; indexing
an empty configuration list throws a TypeError in JavaScript. -/
def findInterface (device : USBDevice) (classCode : ℕ) :
    Except String USBInterface :=
  match device.configurations with
  | [] => .error "TypeError: cannot read properties of undefined"
  | cfg :: _ => findInterfaceLoop classCode cfg.interfaces

/-- The endpoint-not-found message of `findEndpoint`. -/
def endpointNotFoundMsg (iface : USBInterface) (direction : USBDirection) :
    String :=
  "TypeError: Interface " ++ toString iface.interfaceNumber ++
    " does not have an " ++ dirString direction ++ " endpoint."

/-- Loop body of the canonical `findEndpoint`: scan the endpoints of the first
alternate setting in declared order. -/
def findEndpointLoop (iface : USBInterface) (direction : USBDirection) :
    List USBEndpoint → Except String USBEndpoint
  | [] => .error (endpointNotFoundMsg iface direction)
  | e :: rest =>
    if e.direction == direction then .ok e
    else findEndpointLoop iface direction rest

/-- The canonical `findEndpoint`: reads `iface.alternates[0].endpoints`;
an interface with no alternates throws a TypeError in JavaScript. -/
def findEndpoint (iface : USBInterface) (direction : USBDirection) :
    Except String USBEndpoint :=
  match iface.alternates with
  | [] => .error "TypeError: cannot read properties of undefined"
  | a :: _ => findEndpointLoop iface direction a.endpoints

namespace Legacy

/-- `SerialPort.getInterfaceWithClass` of `src/serial.ts`: a `forEach` over
every interface of the active configuration and every alternate, overwriting
the result variable on each match — so the last matching interface wins, and
the function yields `undefined` (here `Option.none`) when nothing matches. -/
def getInterfaceWithClass (config : USBConfiguration) (classNumber : ℕ) :
    Option USBInterface :=
  config.interfaces.foldl
    (fun acc i =>
      if i.alternates.any (fun a => a.interfaceClass == classNumber) then
        some i
      else acc)
    Option.none

end Legacy

/-! ## Control signaling (`SerialPort.setSignals`) -/

/-- The partial `SerialOutputSignals` dictionary passed to `setSignals`
(`none` models an absent / `undefined` member).  The `break` member is named
`brk` (`break` is a reserved word in Lean). -/
structure SerialOutputSignals where
  dataTerminalReady : Option Bool
  requestToSend : Option Bool
  brk : Option Bool
deriving DecidableEq, Repr

/-- The merged signal state `outputSignals_` remembered on the port. -/
structure OutputSignals where
  dataTerminalReady : Bool
  requestToSend : Bool
  brk : Bool
deriving DecidableEq, Repr

/-- Parameters of one `controlTransferOut` issued on the control interface
(`requestType: 'class'`, `recipient: 'interface'` are fixed and omitted). -/
structure ControlTransferParams where
  request : ℕ
  value : ℕ
  index : ℕ
deriving DecidableEq, Repr

/-- `SerialPort.setSignals`: merge the provided members into the remembered
state; if DTR or RTS was provided, issue one Set Control Line State transfer
whose value is the bitmap `(dtr ? 1 << 0 : 0) | (rts ? 1 << 1 : 0)`; if
`break` was provided, issue one Send Break transfer with value 0xFFFF or 0.
Returns the new remembered state and the issued transfers in order. -/
def setSignals (ctrlIface : ℕ) (cur : OutputSignals) (s : SerialOutputSignals) :
    OutputSignals × List ControlTransferParams :=
  let merged : OutputSignals :=
    { dataTerminalReady := s.dataTerminalReady.getD cur.dataTerminalReady
      requestToSend := s.requestToSend.getD cur.requestToSend
      brk := s.brk.getD cur.brk }
  let lineStateTransfers :=
    if s.dataTerminalReady ≠ Option.none ∨ s.requestToSend ≠ Option.none then
      [⟨kSetControlLineState,
        (if merged.dataTerminalReady then 1 <<< 0 else 0) |||
          (if merged.requestToSend then 1 <<< 1 else 0),
        ctrlIface⟩]
    else []
  let breakTransfers :=
    if s.brk ≠ Option.none then
      [⟨kSendBreak, if merged.brk then 0xFFFF else 0x0000, ctrlIface⟩]
    else []
  (merged, lineStateTransfers ++ breakTransfers)

/-! ## Stream adapters

The WHATWG Streams controller semantics the adapters rely on:
`controller.error(e)` is a no-op when the stream is already errored;
`controller.enqueue(chunk)` throws a TypeError when the stream is not
readable.  The adapter's `onError_` callback is modelled by counting its
invocations. -/

/-- Observable state of a `ReadableByteStreamController`: the chunks
enqueued so far and the error the stream was moved to, if any. -/
structure ByteStreamController where
  chunks : List (List ℕ)
  errored : Option String
deriving DecidableEq, Repr

/-- `controller.error(e)`: stores the first error, no-op afterwards. -/
def ctrlError (c : ByteStreamController) (e : String) : ByteStreamController :=
  if c.errored.isSome then c else { c with errored := some e }

/-- `controller.enqueue(chunk)`: throws a TypeError when the stream is no
longer readable, otherwise appends the chunk. -/
def ctrlEnqueue (c : ByteStreamController) (chunk : List ℕ) :
    Except String ByteStreamController :=
  if c.errored.isSome then .error "TypeError: stream is not readable"
  else .ok { c with chunks := c.chunks ++ [chunk] }

/-- Outcome of one `device.transferIn` call: a result carrying a status and
an optional data view, or a thrown transport error. -/
inductive TransferInOutcome where
  | result (status : String) (data : Option (List ℕ))
  | thrown (e : String)
deriving DecidableEq, Repr

/-- The transfer size computed at the top of
`UsbEndpointUnderlyingSource.pull`: when `controller.desiredSize` is truthy
(non-null and non-zero), `Math.ceil(desiredSize / packetSize) * packetSize`,
otherwise one packet.  `Math.ceil` of the exact quotient is computed on
integers as `-(-d / ps)` (Euclidean division); this agrees with
`⌈d / ps⌉` — see `ceilDiv_eq_rat_ceil`. -/
def computeChunkSize (desiredSize : Option ℤ) (packetSize : ℕ) : ℤ :=
  match desiredSize with
  | Option.none => packetSize
  | some d =>
    if d = 0 then packetSize
    else (-(-d / (packetSize : ℤ))) * packetSize

/-- `UsbEndpointUnderlyingSource.pull`: compute the transfer size, issue one
inbound transfer, and (in source order, with no early return) error the
controller and invoke `onError_` on a non-`'ok'` status, then enqueue the
received data if the result carries any; the surrounding catch errors the
controller and invokes `onError_` on any thrown error, including the
TypeError thrown by enqueueing on an errored stream.  Returns the requested
transfer size, the final controller state and the `onError_` count. -/
def pull (desiredSize : Option ℤ) (packetSize : ℕ)
    (outcome : TransferInOutcome) (c : ByteStreamController) (onErrorCount : ℕ) :
    ℤ × ByteStreamController × ℕ :=
  let chunkSize := computeChunkSize desiredSize packetSize
  match outcome with
  | .thrown e => (chunkSize, ctrlError c e, onErrorCount + 1)
  | .result status data =>
    let c1 := if status ≠ "ok" then ctrlError c ("USB error: " ++ status) else c
    let n1 := if status ≠ "ok" then onErrorCount + 1 else onErrorCount
    match data with
    | Option.none => (chunkSize, c1, n1)
    | some d =>
      match ctrlEnqueue c1 d with
      | .ok c2 => (chunkSize, c2, n1)
      | .error te => (chunkSize, ctrlError c1 te, n1 + 1)

/-- A `transferIn` outcome is failed when the transport threw or the result
status is not `'ok'`. -/
def failedTransferIn : TransferInOutcome → Prop
  | .thrown _ => True
  | .result status _ => status ≠ "ok"

instance (o : TransferInOutcome) : Decidable (failedTransferIn o) := by
  unfold failedTransferIn; cases o <;> infer_instance

/-- A chunk value offered to a write function: either a `Uint8Array` or some
other JavaScript value (described by a string). -/
inductive Chunk where
  | bytes (data : List ℕ)
  | other (description : String)
deriving DecidableEq, Repr

/-- Whether a chunk is a `Uint8Array` (`chunk instanceof Uint8Array`). -/
def Chunk.isBytes : Chunk → Bool
  | .bytes _ => true
  | .other _ => false

/-- Outcome of one `device.transferOut` call. -/
inductive TransferOutOutcome where
  | result (status : String)
  | thrown (e : String)
deriving DecidableEq, Repr

/-- Observable state of a `WritableStreamDefaultController` (only the error
signal matters here; `error` is a no-op once the stream is errored). -/
structure WritableController where
  errored : Option String
deriving DecidableEq, Repr

/-- `controller.error(e)` on the writable side. -/
def wctrlError (c : WritableController) (e : String) : WritableController :=
  if c.errored.isSome then c else { c with errored := some e }

/-- `UsbEndpointUnderlyingSink.write`: passes the chunk straight to
`device.transferOut` (no chunk-type check of any kind), then errors the
controller and invokes `onError_` on a non-`'ok'` status or a thrown error.
Returns the list of chunks handed to `transferOut`, the error the method
itself raises (always `none`: all failures are routed to the controller), the
final controller state and the `onError_` count. -/
def sinkWrite (chunk : Chunk) (outcome : TransferOutOutcome)
    (c : WritableController) (onErrorCount : ℕ) :
    List Chunk × Option String × WritableController × ℕ :=
  match outcome with
  | .thrown e => ([chunk], Option.none, wctrlError c e, onErrorCount + 1)
  | .result status =>
    if status ≠ "ok" then
      ([chunk], Option.none, wctrlError c status, onErrorCount + 1)
    else ([chunk], Option.none, c, onErrorCount)

namespace Legacy

/-- `SerialPort.write` of `src/serial.ts` (the write member of the legacy
generation's `WritableStream`): errors the controller and returns when no OUT
endpoint is found; otherwise issues the transfer only when the chunk is a
`Uint8Array` (a thrown transport error goes to the controller), and throws a
TypeError without touching the device for any other chunk.  Returns the list
of chunks handed to `transferOut`, the error the method raises (if any) and
the final controller state. -/
def write (endpoint : Option USBEndpoint) (chunk : Chunk)
    (outcome : TransferOutOutcome) (c : WritableController) :
    List Chunk × Option String × WritableController :=
  match endpoint with
  | Option.none =>
    ([], Option.none, wctrlError c "No OUT endpoint available.")
  | some _ =>
    match chunk with
    | .bytes _ =>
      match outcome with
      | .thrown e => ([chunk], Option.none, wctrlError c e)
      | .result _ => ([chunk], Option.none, c)
    | .other _ =>
      ([], some "TypeError: Can only send Uint8Array", c)

end Legacy

/-! ## Theorems -/

/-- C9: for every 7-byte line-coding buffer, a stop-bits byte at offset 4 that
is at least the stop-bits table length decodes to 1 stop bit, and a parity
byte at offset 5 that is at least the parity table length decodes to parity
`none`; the decoder is a total function, so decoding never fails. -/
theorem readLineCoding_out_of_table_defaults (b : List ℕ)
    (_h7 : b.length = 7) :
    (Legacy.kStopbitsIndexMapping.length ≤ b.getD 4 0 →
      (Legacy.readLineCoding b).stopbits = 1) ∧
    (Legacy.kParityIndexMapping.length ≤ b.getD 5 0 →
      (Legacy.readLineCoding b).parity = ParityType.none) := by
  constructor
  · intro h
    simp only [Legacy.readLineCoding]
    rw [if_neg (by omega)]
  · intro h
    simp only [Legacy.readLineCoding]
    rw [if_neg (by omega)]

/-- Witness for C9 at the concrete buffer `[0,0,0,0,9,7,0]`: the out-of-table
codes 9 and 7 decode to 1 stop bit and parity `none`. -/
theorem readLineCoding_out_of_table_defaults_witness :
    ([0, 0, 0, 0, 9, 7, 0] : List ℕ).length = 7 ∧
    (Legacy.readLineCoding [0, 0, 0, 0, 9, 7, 0]).stopbits = 1 ∧
    (Legacy.readLineCoding [0, 0, 0, 0, 9, 7, 0]).parity = ParityType.none :=
  ⟨by decide,
   (readLineCoding_out_of_table_defaults [0, 0, 0, 0, 9, 7, 0]
     (by decide)).1 (by decide),
   (readLineCoding_out_of_table_defaults [0, 0, 0, 0, 9, 7, 0]
     (by decide)).2 (by decide)⟩

/-- C1 counterexample: the options record with baud rate 2^32 and data bits
256 has in-table stop bits and parity, yet decoding its encoding does not give
the record back (the u32/u8 coercions of `DataView` wrap both fields to 0), so
the round trip does not hold for every record with in-table stop bits and
parity. -/
theorem lineCoding_roundTrip_cex :
    (1 : ℚ) ∈ Legacy.kStopbitsIndexMapping ∧
    ParityType.none ∈ Legacy.kParityIndexMapping ∧
    Legacy.readLineCoding (Legacy.getLineCodingStructure
      ⟨4294967296, 256, 1, ParityType.none⟩) ≠
      ⟨4294967296, 256, 1, ParityType.none⟩ := by decide

/-- C1 amended: for every options record whose stop bits and parity are in
the encoding tables and whose baud rate and data bits are integers within the
u32 and u8 ranges, decoding the 7-byte buffer produced by encoding the record
yields back the same baud rate, data bits, stop bits and parity. -/
theorem lineCoding_roundTrip_amended (o : Legacy.SerialOptions)
    (hs : o.stopbits ∈ Legacy.kStopbitsIndexMapping)
    (hp : o.parity ∈ Legacy.kParityIndexMapping)
    (hb0 : 0 ≤ o.baudrate) (hb1 : o.baudrate < 4294967296)
    (hd0 : 0 ≤ o.databits) (hd1 : o.databits < 256) :
    Legacy.readLineCoding (Legacy.getLineCodingStructure o) = o := by
  rcases o with ⟨b, d, s, p⟩
  simp only [Legacy.kStopbitsIndexMapping, Legacy.kParityIndexMapping,
    List.mem_cons, List.not_mem_nil, or_false] at hs hp
  simp only at hb0 hb1 hd0 hd1
  rcases hs with h | h | h <;> subst h <;>
    rcases hp with h | h | h | h | h <;> subst h <;>
      (simp only [Legacy.readLineCoding, Legacy.getLineCodingStructure,
        uint32LE, jsToUint32, jsToUint8, List.cons_append, List.nil_append,
        List.getD_cons_zero, List.getD_cons_succ,
        Legacy.SerialOptions.mk.injEq]
       refine ⟨?_, ?_, ?_, ?_⟩ <;> first | decide | omega)

/-- Witness for C1 at baud 9600, 8 data bits, 1.5 stop bits, space parity. -/
theorem lineCoding_roundTrip_amended_witness :
    (onePointFive ∈ Legacy.kStopbitsIndexMapping ∧
      ParityType.space ∈ Legacy.kParityIndexMapping ∧
      (0 : ℤ) ≤ 9600 ∧ (9600 : ℤ) < 4294967296 ∧ (0 : ℤ) ≤ 8 ∧
      (8 : ℤ) < 256) ∧
    Legacy.readLineCoding (Legacy.getLineCodingStructure
      ⟨9600, 8, onePointFive, ParityType.space⟩) =
      ⟨9600, 8, onePointFive, ParityType.space⟩ :=
  ⟨⟨by decide, by decide, by decide, by decide, by decide, by decide⟩,
   lineCoding_roundTrip_amended ⟨9600, 8, onePointFive, ParityType.space⟩
     (by decide) (by decide) (by decide) (by decide) (by decide) (by decide)⟩

/-- Helper: when some step of the try-block of `open` fails, the try-block
raises an error. -/
theorem openTryBody_fails_some (env : OpenEnv) (ctrl xfer : ℕ)
    (st : DeviceState) (hf : someOpenStepFails env ctrl xfer st) :
    (openTryBody env ctrl xfer st).2 ≠ Option.none := by
  unfold someOpenStepFails at hf
  simp only [openTryBody]
  split_ifs <;> simp_all

/-- Helper: starting from an unopened, unclaimed device, the try-block of
`open` either leaves the device unopened and unclaimed or leaves it opened. -/
theorem openTryBody_state (env : OpenEnv) (ctrl xfer : ℕ) (st : DeviceState)
    (h0 : st.opened = false) (h1 : st.claimed = []) :
    ((openTryBody env ctrl xfer st).1.opened = false ∧
      (openTryBody env ctrl xfer st).1.claimed = []) ∨
    (openTryBody env ctrl xfer st).1.opened = true := by
  simp only [openTryBody]
  split_ifs <;> simp_all

/-- C2: starting from an unopened device with no claimed interfaces, whenever
any step of the device sequence of `open` fails (opening, selecting
configuration 1, claiming the control or transfer interface, pushing line
coding, asserting DTR), the device ends unopened with no interface claims
outstanding and `open` rejects with a single wrapped setup error. -/
theorem open_failure_atomicity (env : OpenEnv) (ctrl xfer : ℕ)
    (st : DeviceState) (h0 : st.opened = false) (h1 : st.claimed = [])
    (hf : someOpenStepFails env ctrl xfer st) :
    (openDeviceSequence env ctrl xfer st).1.opened = false ∧
    (openDeviceSequence env ctrl xfer st).1.claimed = [] ∧
    ∃ e, (openDeviceSequence env ctrl xfer st).2 =
      Except.error ("Error setting up device: " ++ e) := by
  rcases hb : openTryBody env ctrl xfer st with ⟨st1, eopt⟩
  rcases eopt with _ | e
  · exact absurd (congrArg Prod.snd hb)
      (openTryBody_fails_some env ctrl xfer st hf)
  · have hseq : openDeviceSequence env ctrl xfer st =
        (if st1.opened then deviceClose st1 else st1,
          Except.error ("Error setting up device: " ++ e)) := by
      unfold openDeviceSequence
      rw [hb]
    rw [hseq]
    have hstate := openTryBody_state env ctrl xfer st h0 h1
    rw [hb] at hstate
    by_cases ho : st1.opened
    · rw [if_pos ho]
      exact ⟨rfl, rfl, e, rfl⟩
    · rw [if_neg ho]
      rcases hstate with ⟨ho1, hc1⟩ | ho1
      · exact ⟨ho1, hc1, e, rfl⟩
      · exact absurd ho1 ho

/-- Witness for C2: a run in which pushing the line coding fails, on an
unopened device with distinct control and transfer interfaces. -/
theorem open_failure_atomicity_witness :
    ((⟨false, Option.none, []⟩ : DeviceState).opened = false ∧
      (⟨false, Option.none, []⟩ : DeviceState).claimed = [] ∧
      someOpenStepFails ⟨true, true, true, true, false, true⟩ 0 1
        ⟨false, Option.none, []⟩) ∧
    (openDeviceSequence ⟨true, true, true, true, false, true⟩ 0 1
      ⟨false, Option.none, []⟩).1.opened = false ∧
    (openDeviceSequence ⟨true, true, true, true, false, true⟩ 0 1
      ⟨false, Option.none, []⟩).1.claimed = [] ∧
    ∃ e, (openDeviceSequence ⟨true, true, true, true, false, true⟩ 0 1
      ⟨false, Option.none, []⟩).2 =
        Except.error ("Error setting up device: " ++ e) :=
  ⟨⟨rfl, rfl, by decide⟩,
   open_failure_atomicity ⟨true, true, true, true, false, true⟩ 0 1
     ⟨false, Option.none, []⟩ rfl rfl (by decide)⟩

/-- Helper: the JavaScript test `b % 1 === 0` holds exactly when `b` is an
integer. -/
theorem jsMod1IsZero_iff_int (b : ℚ) :
    jsMod1IsZero b = true ↔ ∃ n : ℤ, b = (n : ℚ) := by
  unfold jsMod1IsZero
  rw [decide_eq_true_iff]
  constructor
  · intro h
    exact ⟨jsTruncQ b, h⟩
  · rintro ⟨n, rfl⟩
    unfold jsTruncQ
    rw [Rat.num_intCast, Rat.den_intCast]
    norm_num

/-- Helper: `validateOptions` succeeds exactly when all four field checks
pass. -/
theorem validateOptions_ok_iff (o : SerialOptions) :
    validateOptions o = .ok () ↔
      (isValidBaudRate o.baudRate = true ∧ isValidDataBits o.dataBits = true ∧
       isValidStopBits o.stopBits = true ∧ isValidParity o.parity = true) := by
  unfold validateOptions
  split_ifs with h1 h2 h3 h4 <;> simp_all

/-- C3 counterexample: the fully-specified options record with baud rate -1
(a negative integer, hence not a non-negative integer) passes validation
without error, although the claim requires a validation error for every baud
rate that is not a non-negative integer. -/
theorem validateOptions_negative_baud_cex :
    validateOptions ⟨-1, some 8, some 1, some ParityType.none⟩ = .ok () ∧
    ¬(0 ≤ ((⟨-1, some 8, some 1, some ParityType.none⟩ :
        SerialOptions).baudRate)) := by
  constructor
  · rfl
  · decide

/-- C3 amended: for every fully-specified options record, `open(options)` and
`reconfigure(options)` raise a synchronous range error before issuing any
device call if and only if the baud rate is not an integer (negative integers
are accepted), or the data bits are outside the set 5, 6, 7, 8, 16, or the
stop bits are outside the set 1, 2, or the parity is outside the accepted set
of `none`, `odd` and `even`; and when validation fails, the whole `open`
leaves the device state untouched. -/
theorem validateOptions_raises_iff_amended (o : SerialOptions) (db : ℤ)
    (sb : ℚ) (p : ParityType) (hdb : o.dataBits = some db)
    (hsb : o.stopBits = some sb) (hp : o.parity = some p) :
    ((validateOptions o ≠ Except.ok ()) ↔
      ((¬∃ n : ℤ, o.baudRate = (n : ℚ)) ∨ db ∉ ([5, 6, 7, 8, 16] : List ℤ) ∨
        sb ∉ ([1, 2] : List ℚ) ∨
        p ∉ ([ParityType.none, ParityType.odd, ParityType.even] :
          List ParityType))) ∧
    (∀ (env : OpenEnv) (ctrl xfer : ℕ) (st : DeviceState),
      validateOptions o ≠ Except.ok () →
      (openFull env ctrl xfer o st).1 = st) := by
  constructor
  · rw [Ne, validateOptions_ok_iff, hdb, hsb, hp]
    have hbaud : isValidBaudRate o.baudRate = true ↔
        ∃ n : ℤ, o.baudRate = (n : ℚ) := by
      rw [show isValidBaudRate o.baudRate = jsMod1IsZero o.baudRate from rfl]
      exact jsMod1IsZero_iff_int o.baudRate
    have hdata : isValidDataBits (some db) = true ↔
        db ∈ ([5, 6, 7, 8, 16] : List ℤ) := by
      rw [show isValidDataBits (some db) =
        decide (db ∈ kAcceptableDataBits) from rfl, decide_eq_true_iff]
      unfold kAcceptableDataBits
      simp only [List.mem_cons, List.not_mem_nil, or_false]
      tauto
    have hstop : isValidStopBits (some sb) = true ↔
        sb ∈ ([1, 2] : List ℚ) := by
      rw [show isValidStopBits (some sb) =
        decide (sb ∈ kAcceptableStopBits) from rfl, decide_eq_true_iff]
      rfl
    have hpar : isValidParity (some p) = true ↔
        p ∈ ([ParityType.none, ParityType.odd, ParityType.even] :
          List ParityType) := by
      rw [show isValidParity (some p) =
        decide (p ∈ kAcceptableParity) from rfl, decide_eq_true_iff]
      unfold kAcceptableParity
      simp only [List.mem_cons, List.not_mem_nil, or_false]
      tauto
    rw [hbaud, hdata, hstop, hpar]
    constructor
    · intro hne
      by_cases ha : ∃ n : ℤ, o.baudRate = (n : ℚ)
      · by_cases hb : db ∈ ([5, 6, 7, 8, 16] : List ℤ)
        · by_cases hc : sb ∈ ([1, 2] : List ℚ)
          · exact Or.inr (Or.inr (Or.inr (fun hd => hne ⟨ha, hb, hc, hd⟩)))
          · exact Or.inr (Or.inr (Or.inl hc))
        · exact Or.inr (Or.inl hb)
      · exact Or.inl ha
    · rintro (h | h | h | h) ⟨ha, hb, hc, hd⟩ <;> contradiction
  · intro env ctrl xfer st hne
    unfold openFull
    rcases hv : validateOptions o with e | u
    · rfl
    · exact absurd (by rw [hv]) hne

/-- Witness for C3 at the fully-specified record with the invalid data-bits
value 9: validation raises, and `open` leaves the device state untouched. -/
theorem validateOptions_raises_iff_amended_witness :
    ((validateOptions ⟨9600, some 9, some 1, some ParityType.none⟩ ≠
        Except.ok ()) ↔
      ((¬∃ n : ℤ, (⟨9600, some 9, some 1, some ParityType.none⟩ :
          SerialOptions).baudRate = (n : ℚ)) ∨
        (9 : ℤ) ∉ ([5, 6, 7, 8, 16] : List ℤ) ∨
        (1 : ℚ) ∉ ([1, 2] : List ℚ) ∨
        ParityType.none ∉ ([ParityType.none, ParityType.odd,
          ParityType.even] : List ParityType))) ∧
    (openFull ⟨true, true, true, true, true, true⟩ 0 1
      ⟨9600, some 9, some 1, some ParityType.none⟩
      ⟨false, Option.none, []⟩).1 = ⟨false, Option.none, []⟩ :=
  ⟨(validateOptions_raises_iff_amended
      ⟨9600, some 9, some 1, some ParityType.none⟩ 9 1 ParityType.none
      rfl rfl rfl).1,
   (validateOptions_raises_iff_amended
      ⟨9600, some 9, some 1, some ParityType.none⟩ 9 1 ParityType.none
      rfl rfl rfl).2 ⟨true, true, true, true, true, true⟩ 0 1
     ⟨false, Option.none, []⟩
     ((validateOptions_raises_iff_amended
        ⟨9600, some 9, some 1, some ParityType.none⟩ 9 1 ParityType.none
        rfl rfl rfl).1.mpr (Or.inr (Or.inl (by decide))))⟩

/-- Helper: `controller.error` never changes the enqueued chunks. -/
theorem ctrlError_chunks (c : ByteStreamController) (e : String) :
    (ctrlError c e).chunks = c.chunks := by
  unfold ctrlError; split <;> rfl

/-- Helper: after `controller.error` the stream is errored. -/
theorem ctrlError_isSome (c : ByteStreamController) (e : String) :
    (ctrlError c e).errored.isSome = true := by
  unfold ctrlError; split
  · assumption
  · rfl

/-- Helper: the transfer size requested by `pull` is `computeChunkSize`,
whatever the transfer outcome. -/
theorem pull_fst (des : Option ℤ) (ps : ℕ) (outcome : TransferInOutcome)
    (c : ByteStreamController) (n : ℕ) :
    (pull des ps outcome c n).1 = computeChunkSize des ps := by
  rcases outcome with ⟨status, data⟩ | e
  · rcases data with _ | d
    · rfl
    · dsimp only [pull]
      rcases ctrlEnqueue
        (if status ≠ "ok" then ctrlError c ("USB error: " ++ status) else c)
        d with c2 | te <;> rfl
  · rfl

/-- C4: for every inbound transfer that completes with a non-success status
or throws a transport error, `pull` leaves the consumer queue untouched (no
byte of the failed transfer is enqueued), moves the stream to an errored
state, and invokes the adapter error callback at least once. -/
theorem pull_failed_transfer_delivers_nothing (des : Option ℤ) (ps : ℕ)
    (outcome : TransferInOutcome) (c : ByteStreamController) (n : ℕ)
    (h : failedTransferIn outcome) :
    (pull des ps outcome c n).2.1.chunks = c.chunks ∧
    (pull des ps outcome c n).2.1.errored.isSome = true ∧
    n + 1 ≤ (pull des ps outcome c n).2.2 := by
  unfold pull
  rcases outcome with ⟨status, data⟩ | e
  · have hs : status ≠ "ok" := h
    rcases data with _ | dchunk
    · simp only [if_pos hs]
      exact ⟨ctrlError_chunks c _, ctrlError_isSome c _, le_refl _⟩
    · simp only [if_pos hs]
      have henq : ctrlEnqueue (ctrlError c ("USB error: " ++ status)) dchunk =
          .error "TypeError: stream is not readable" := by
        unfold ctrlEnqueue
        rw [if_pos (ctrlError_isSome c _)]
      rw [henq]
      simp only
      refine ⟨?_, ?_, by omega⟩
      · rw [ctrlError_chunks, ctrlError_chunks]
      · exact ctrlError_isSome _ _
  · exact ⟨ctrlError_chunks c _, ctrlError_isSome c _, le_refl _⟩

/-- Witness for C4: a transfer completing with status `stall` and carrying
data delivers nothing to a consumer that already holds one chunk. -/
theorem pull_failed_transfer_delivers_nothing_witness :
    failedTransferIn (TransferInOutcome.result "stall" (some [1, 2])) ∧
    (pull Option.none 64 (TransferInOutcome.result "stall" (some [1, 2]))
      ⟨[[5]], Option.none⟩ 0).2.1.chunks = [[5]] ∧
    (pull Option.none 64 (TransferInOutcome.result "stall" (some [1, 2]))
      ⟨[[5]], Option.none⟩ 0).2.1.errored.isSome = true ∧
    0 + 1 ≤ (pull Option.none 64
      (TransferInOutcome.result "stall" (some [1, 2]))
      ⟨[[5]], Option.none⟩ 0).2.2 :=
  ⟨by decide,
   (pull_failed_transfer_delivers_nothing Option.none 64
     (TransferInOutcome.result "stall" (some [1, 2]))
     ⟨[[5]], Option.none⟩ 0 (by decide)).1,
   (pull_failed_transfer_delivers_nothing Option.none 64
     (TransferInOutcome.result "stall" (some [1, 2]))
     ⟨[[5]], Option.none⟩ 0 (by decide)).2.1,
   (pull_failed_transfer_delivers_nothing Option.none 64
     (TransferInOutcome.result "stall" (some [1, 2]))
     ⟨[[5]], Option.none⟩ 0 (by decide)).2.2⟩

/-- Helper: integer ceiling division agrees with the rational ceiling of the
exact quotient. -/
theorem ceilDiv_eq_rat_ceil (a : ℤ) (b : ℕ) :
    (-(-a / (b : ℤ))) = ⌈(a : ℚ) / ((b : ℕ) : ℚ)⌉ := by
  have h : ⌊((-a : ℤ) : ℚ) / ((b : ℕ) : ℚ)⌋ = (-a) / (b : ℤ) :=
    Rat.floor_intCast_div_natCast (-a) b
  have h2 : ((-a : ℤ) : ℚ) / ((b : ℕ) : ℚ) = -((a : ℚ) / ((b : ℕ) : ℚ)) := by
    push_cast; ring
  rw [h2, Int.floor_neg] at h
  rw [← h, neg_neg]

/-- C8: on every pull with a (truthy) desired size d and a positive packet
size, the inbound transfer requests the ceiling of d over the packet size
times the packet size; with no desired size it requests exactly one packet;
in particular desired size 100 with packet size 64 requests 128 bytes and no
desired size with packet size 64 requests 64 bytes. -/
theorem pull_chunk_sizing (d : ℤ) (ps : ℕ) (outcome : TransferInOutcome)
    (c : ByteStreamController) (n : ℕ) (hd : d ≠ 0) (_hps : 0 < ps) :
    (pull (some d) ps outcome c n).1 = ⌈(d : ℚ) / ((ps : ℕ) : ℚ)⌉ * ps ∧
    (pull Option.none ps outcome c n).1 = ps ∧
    (pull (some 100) 64 outcome c n).1 = 128 ∧
    (pull Option.none 64 outcome c n).1 = 64 := by
  rw [pull_fst, pull_fst, pull_fst, pull_fst]
  refine ⟨?_, rfl, ?_, rfl⟩
  · have hc : computeChunkSize (some d) ps =
        if d = 0 then (ps : ℤ) else (-(-d / (ps : ℤ))) * ps := rfl
    rw [hc, if_neg hd, ceilDiv_eq_rat_ceil]
  · decide

/-- Witness for C8 at desired size 100 and packet size 64. -/
theorem pull_chunk_sizing_witness :
    ((100 : ℤ) ≠ 0 ∧ (0 : ℕ) < 64) ∧
    (pull (some 100) 64 (TransferInOutcome.result "ok" Option.none)
      ⟨[], Option.none⟩ 0).1 = ⌈(100 : ℚ) / ((64 : ℕ) : ℚ)⌉ * 64 ∧
    (pull Option.none 64 (TransferInOutcome.result "ok" Option.none)
      ⟨[], Option.none⟩ 0).1 = 64 ∧
    (pull (some 100) 64 (TransferInOutcome.result "ok" Option.none)
      ⟨[], Option.none⟩ 0).1 = 128 ∧
    (pull Option.none 64 (TransferInOutcome.result "ok" Option.none)
      ⟨[], Option.none⟩ 0).1 = 64 :=
  ⟨⟨by decide, by decide⟩,
   pull_chunk_sizing 100 64 (TransferInOutcome.result "ok" Option.none)
     ⟨[], Option.none⟩ 0 (by decide) (by decide)⟩

/-- C5 counterexample: the canonical sink hands a non-`Uint8Array` chunk
straight to `transferOut` — the write is not rejected with a type error
before a transfer is attempted. -/
theorem sink_no_chunk_type_guard_cex :
    (sinkWrite (Chunk.other "a plain string") (TransferOutOutcome.result "ok")
      ⟨Option.none⟩ 0).1 = [Chunk.other "a plain string"] ∧
    Chunk.isBytes (Chunk.other "a plain string") = false ∧
    (sinkWrite (Chunk.other "a plain string") (TransferOutOutcome.result "ok")
      ⟨Option.none⟩ 0).2.1 = Option.none := by
  refine ⟨?_, rfl, ?_⟩ <;> decide

/-- C5 amended: in the legacy generation's write (with an OUT endpoint
available), every chunk that is not a `Uint8Array` is rejected with a
TypeError and no outbound transfer is attempted, and an outbound transfer is
issued exactly when the chunk is a `Uint8Array`; the canonical generation's
sink performs no chunk-type check and hands every chunk to the transfer
layer. -/
theorem legacy_write_chunk_type_guard (ep : USBEndpoint) (chunk : Chunk)
    (outcome : TransferOutOutcome) (c : WritableController) :
    (Chunk.isBytes chunk = false →
      Legacy.write (some ep) chunk outcome c =
        ([], some "TypeError: Can only send Uint8Array", c)) ∧
    (Chunk.isBytes chunk = true →
      (Legacy.write (some ep) chunk outcome c).1 = [chunk] ∧
      (Legacy.write (some ep) chunk outcome c).2.1 = Option.none) := by
  rcases chunk with d | s
  · refine ⟨fun hfalse => by simp [Chunk.isBytes] at hfalse, fun _ => ?_⟩
    rcases outcome with st | e <;> exact ⟨rfl, rfl⟩
  · refine ⟨fun _ => rfl, fun htrue => by simp [Chunk.isBytes] at htrue⟩

/-- Witness for C5: a string chunk is rejected without a transfer, a byte
chunk is transferred without an exception. -/
theorem legacy_write_chunk_type_guard_witness :
    Legacy.write (some ⟨2, USBDirection.dirOut, 64⟩) (Chunk.other "a string")
      (TransferOutOutcome.result "ok") ⟨Option.none⟩ =
      ([], some "TypeError: Can only send Uint8Array", ⟨Option.none⟩) ∧
    (Legacy.write (some ⟨2, USBDirection.dirOut, 64⟩) (Chunk.bytes [1, 2])
      (TransferOutOutcome.result "ok") ⟨Option.none⟩).1 =
      [Chunk.bytes [1, 2]] ∧
    (Legacy.write (some ⟨2, USBDirection.dirOut, 64⟩) (Chunk.bytes [1, 2])
      (TransferOutOutcome.result "ok") ⟨Option.none⟩).2.1 = Option.none :=
  ⟨(legacy_write_chunk_type_guard ⟨2, USBDirection.dirOut, 64⟩
      (Chunk.other "a string") (TransferOutOutcome.result "ok")
      ⟨Option.none⟩).1 (by decide),
   (legacy_write_chunk_type_guard ⟨2, USBDirection.dirOut, 64⟩
      (Chunk.bytes [1, 2]) (TransferOutOutcome.result "ok")
      ⟨Option.none⟩).2 (by decide)⟩

/-- Helper: bit 0 and bit 1 of the Set Control Line State bitmap are the DTR
and RTS flags. -/
theorem bitmap_testBits (a b : Bool) :
    (((if a then 1 <<< 0 else 0) |||
        (if b then 1 <<< 1 else 0) : ℕ).testBit 0 = a) ∧
    (((if a then 1 <<< 0 else 0) |||
        (if b then 1 <<< 1 else 0) : ℕ).testBit 1 = b) := by
  cases a <;> cases b <;> exact ⟨by decide, by decide⟩

/-- C7: for every `setSignals` call that provides DTR or RTS, exactly one Set
Control Line State transfer (request 0x22) is issued, and its value carries
the merged DTR state in bit 0 and the merged RTS state in bit 1; from the
all-false state, providing DTR true and RTS false yields value 0x01, and
providing both true yields 0x03. -/
theorem setSignals_control_line_bitmap (ctrlIface : ℕ) (cur : OutputSignals)
    (s : SerialOutputSignals)
    (h : s.dataTerminalReady ≠ Option.none ∨ s.requestToSend ≠ Option.none) :
    ((setSignals ctrlIface cur s).2.filter
        (fun t => t.request == kSetControlLineState)).length = 1 ∧
    (∀ t ∈ (setSignals ctrlIface cur s).2, t.request = kSetControlLineState →
      t.value.testBit 0 = (setSignals ctrlIface cur s).1.dataTerminalReady ∧
      t.value.testBit 1 = (setSignals ctrlIface cur s).1.requestToSend) ∧
    (setSignals 0 ⟨false, false, false⟩
        ⟨some true, some false, Option.none⟩).2 =
      [⟨kSetControlLineState, 1, 0⟩] ∧
    (setSignals 0 ⟨false, false, false⟩
        ⟨some true, some true, Option.none⟩).2 =
      [⟨kSetControlLineState, 3, 0⟩] := by
  refine ⟨?_, ?_, by decide, by decide⟩
  · dsimp only [setSignals]
    rw [if_pos h]
    by_cases hb : s.brk ≠ Option.none
    · rw [if_pos hb]
      simp [kSetControlLineState, kSendBreak]
    · rw [if_neg hb]
      simp [kSetControlLineState]
  · dsimp only [setSignals]
    rw [if_pos h]
    intro t ht hreq
    by_cases hb : s.brk ≠ Option.none
    · rw [if_pos hb] at ht
      simp only [List.cons_append, List.nil_append, List.mem_cons,
        List.mem_singleton, List.not_mem_nil, or_false] at ht
      rcases ht with ht | ht
      · subst ht
        exact bitmap_testBits _ _
      · subst ht
        simp [kSendBreak, kSetControlLineState] at hreq
    · rw [if_neg hb] at ht
      simp only [List.cons_append, List.nil_append, List.mem_singleton] at ht
      subst ht
      exact bitmap_testBits _ _

/-- Witness for C7: providing RTS (and break) from a state with DTR already
remembered true issues one 0x22 transfer with the right bits. -/
theorem setSignals_control_line_bitmap_witness :
    ((⟨Option.none, some true, some true⟩ :
        SerialOutputSignals).dataTerminalReady ≠ Option.none ∨
      (⟨Option.none, some true, some true⟩ :
        SerialOutputSignals).requestToSend ≠ Option.none) ∧
    ((setSignals 7 ⟨true, false, false⟩
        ⟨Option.none, some true, some true⟩).2.filter
      (fun t => t.request == kSetControlLineState)).length = 1 ∧
    (∀ t ∈ (setSignals 7 ⟨true, false, false⟩
        ⟨Option.none, some true, some true⟩).2,
      t.request = kSetControlLineState →
      t.value.testBit 0 = (setSignals 7 ⟨true, false, false⟩
        ⟨Option.none, some true, some true⟩).1.dataTerminalReady ∧
      t.value.testBit 1 = (setSignals 7 ⟨true, false, false⟩
        ⟨Option.none, some true, some true⟩).1.requestToSend) ∧
    (setSignals 0 ⟨false, false, false⟩
      ⟨some true, some false, Option.none⟩).2 =
      [⟨kSetControlLineState, 1, 0⟩] ∧
    (setSignals 0 ⟨false, false, false⟩
      ⟨some true, some true, Option.none⟩).2 =
      [⟨kSetControlLineState, 3, 0⟩] :=
  ⟨by decide,
   setSignals_control_line_bitmap 7 ⟨true, false, false⟩
     ⟨Option.none, some true, some true⟩ (by decide)⟩

/-- C6 counterexample: on a configuration with two interfaces whose alternate
settings both declare class 2, the legacy generation's interface lookup
(`getInterfaceWithClass`) returns the second interface in declared order, not
the first matching one. -/
theorem legacy_interface_lookup_last_match_cex :
    Legacy.getInterfaceWithClass
      ⟨[⟨0, [⟨2, []⟩]⟩, ⟨1, [⟨2, []⟩]⟩]⟩ 2 = some ⟨1, [⟨2, []⟩]⟩ ∧
    (⟨[⟨0, [⟨2, []⟩]⟩, ⟨1, [⟨2, []⟩]⟩]⟩ : USBConfiguration).interfaces.find?
      (fun i => i.alternates.any (fun a => a.interfaceClass == 2)) =
      some ⟨0, [⟨2, []⟩]⟩ ∧
    (⟨1, [⟨2, []⟩]⟩ : USBInterface) ≠ ⟨0, [⟨2, []⟩]⟩ := by
  refine ⟨?_, ?_, ?_⟩ <;> decide

/-- Helper: the loop of `findInterface` is a first-match scan over the
declared interface order, with the not-found error when nothing matches. -/
theorem findInterfaceLoop_eq (classCode : ℕ) (l : List USBInterface)
    (h : ∀ i ∈ l, i.alternates ≠ []) :
    findInterfaceLoop classCode l =
      match l.find? (firstAltClassMatches classCode) with
      | some i => .ok i
      | Option.none => .error (interfaceNotFoundMsg classCode) := by
  induction l with
  | nil => rfl
  | cons i rest ih =>
    have hi : i.alternates ≠ [] := h i (List.mem_cons_self i rest)
    rcases halt : i.alternates with _ | ⟨a, as⟩
    · exact absurd halt hi
    · rw [List.find?_cons]
      have hpred : firstAltClassMatches classCode i =
          (a.interfaceClass == classCode) := by
        unfold firstAltClassMatches
        rw [halt]
      rw [hpred]
      unfold findInterfaceLoop
      rw [halt]
      dsimp only
      by_cases hc : (a.interfaceClass == classCode) = true
      · rw [hc]; rfl
      · rw [Bool.not_eq_true] at hc
        rw [hc]
        exact ih (fun j hj => h j (List.mem_cons_of_mem i hj))

/-- Helper: the loop of `findEndpoint` is a first-match scan over the
declared endpoint order, with the not-found error when nothing matches. -/
theorem findEndpointLoop_eq (iface : USBInterface) (direction : USBDirection)
    (l : List USBEndpoint) :
    findEndpointLoop iface direction l =
      match l.find? (fun e => e.direction == direction) with
      | some e => .ok e
      | Option.none => .error (endpointNotFoundMsg iface direction) := by
  induction l with
  | nil => rfl
  | cons e rest ih =>
    rw [List.find?_cons]
    unfold findEndpointLoop
    by_cases hc : (e.direction == direction) = true
    · rw [hc]; rfl
    · rw [Bool.not_eq_true] at hc
      rw [hc]
      exact ih

/-- C6 amended: in the canonical generation, for every device whose first
configuration's interfaces all carry at least one alternate setting,
`findInterface` returns the first interface in declared order whose first
alternate setting declares the wanted class and fails with the not-found
error when none matches; and for every interface with a first alternate
setting, `findEndpoint` returns the first endpoint with the wanted direction
in declared order and fails with the not-found error when none matches.  The
legacy generation's `getInterfaceWithClass` instead keeps the last matching
interface (see the counterexample). -/
theorem discovery_first_match_amended (device : USBDevice)
    (cfg : USBConfiguration) (rest : List USBConfiguration) (classCode : ℕ)
    (iface : USBInterface) (alt : USBAlternateInterface)
    (arest : List USBAlternateInterface) (direction : USBDirection)
    (hdev : device.configurations = cfg :: rest)
    (hwf : ∀ i ∈ cfg.interfaces, i.alternates ≠ [])
    (halt : iface.alternates = alt :: arest) :
    (findInterface device classCode =
      match cfg.interfaces.find? (firstAltClassMatches classCode) with
      | some i => .ok i
      | Option.none => .error (interfaceNotFoundMsg classCode)) ∧
    (findEndpoint iface direction =
      match alt.endpoints.find? (fun e => e.direction == direction) with
      | some e => .ok e
      | Option.none => .error (endpointNotFoundMsg iface direction)) := by
  constructor
  · unfold findInterface
    rw [hdev]
    exact findInterfaceLoop_eq classCode cfg.interfaces hwf
  · unfold findEndpoint
    rw [halt]
    exact findEndpointLoop_eq iface direction alt.endpoints

/-- Witness for C6 on a CDC-shaped device: class 10 resolves to the second
interface (the first declaring class 10 first), and its IN endpoint is
found. -/
theorem discovery_first_match_amended_witness :
    findInterface
      ⟨[⟨[⟨0, [⟨2, []⟩]⟩,
          ⟨1, [⟨10, [⟨129, USBDirection.dirIn, 64⟩,
            ⟨2, USBDirection.dirOut, 64⟩]⟩]⟩]⟩]⟩ 10 =
      Except.ok ⟨1, [⟨10, [⟨129, USBDirection.dirIn, 64⟩,
        ⟨2, USBDirection.dirOut, 64⟩]⟩]⟩ ∧
    findEndpoint
      ⟨1, [⟨10, [⟨129, USBDirection.dirIn, 64⟩,
        ⟨2, USBDirection.dirOut, 64⟩]⟩]⟩ USBDirection.dirIn =
      Except.ok ⟨129, USBDirection.dirIn, 64⟩ :=
  ⟨(discovery_first_match_amended
      ⟨[⟨[⟨0, [⟨2, []⟩]⟩,
          ⟨1, [⟨10, [⟨129, USBDirection.dirIn, 64⟩,
            ⟨2, USBDirection.dirOut, 64⟩]⟩]⟩]⟩]⟩
      ⟨[⟨0, [⟨2, []⟩]⟩,
        ⟨1, [⟨10, [⟨129, USBDirection.dirIn, 64⟩,
          ⟨2, USBDirection.dirOut, 64⟩]⟩]⟩]⟩
      [] 10
      ⟨1, [⟨10, [⟨129, USBDirection.dirIn, 64⟩,
        ⟨2, USBDirection.dirOut, 64⟩]⟩]⟩
      ⟨10, [⟨129, USBDirection.dirIn, 64⟩, ⟨2, USBDirection.dirOut, 64⟩]⟩
      [] USBDirection.dirIn rfl (by decide) rfl).1,
   (discovery_first_match_amended
      ⟨[⟨[⟨0, [⟨2, []⟩]⟩,
          ⟨1, [⟨10, [⟨129, USBDirection.dirIn, 64⟩,
            ⟨2, USBDirection.dirOut, 64⟩]⟩]⟩]⟩]⟩
      ⟨[⟨0, [⟨2, []⟩]⟩,
        ⟨1, [⟨10, [⟨129, USBDirection.dirIn, 64⟩,
          ⟨2, USBDirection.dirOut, 64⟩]⟩]⟩]⟩
      [] 10
      ⟨1, [⟨10, [⟨129, USBDirection.dirIn, 64⟩,
        ⟨2, USBDirection.dirOut, 64⟩]⟩]⟩
      ⟨10, [⟨129, USBDirection.dirIn, 64⟩, ⟨2, USBDirection.dirOut, 64⟩]⟩
      [] USBDirection.dirIn rfl (by decide) rfl).2⟩

/-- C10: for every options record of the canonical generation in which data
bits, stop bits and parity are absent, validation constrains only the baud
rate; and the encoded 7-byte line-coding payload substitutes the defaults for
each absent field: data bits 8 at offset 6, stop-bits code 0 (1 stop bit) at
offset 4, parity code 0 (`none`) at offset 5. -/
theorem absent_options_defaults (o : SerialOptions) :
    (o.dataBits = Option.none ∧ o.stopBits = Option.none ∧
        o.parity = Option.none →
      ((validateOptions o ≠ Except.ok ()) ↔ ¬∃ n : ℤ, o.baudRate = (n : ℚ))) ∧
    (o.dataBits = Option.none → (setLineCodingBuffer o).getD 6 0 = 8) ∧
    (o.stopBits = Option.none → (setLineCodingBuffer o).getD 4 0 = 0) ∧
    (o.parity = Option.none → (setLineCodingBuffer o).getD 5 0 = 0) := by
  refine ⟨?_, ?_, ?_, ?_⟩
  · rintro ⟨h1, h2, h3⟩
    rw [Ne, validateOptions_ok_iff, h1, h2, h3]
    simp only [show isValidDataBits Option.none = true from rfl,
      show isValidStopBits Option.none = true from rfl,
      show isValidParity Option.none = true from rfl, and_true]
    exact not_congr (jsMod1IsZero_iff_int o.baudRate)
  · intro h
    simp only [setLineCodingBuffer, uint32LE, List.cons_append,
      List.nil_append, List.getD_cons_zero, List.getD_cons_succ, h]
    decide
  · intro h
    simp only [setLineCodingBuffer, uint32LE, List.cons_append,
      List.nil_append, List.getD_cons_zero, List.getD_cons_succ, h]
    decide
  · intro h
    simp only [setLineCodingBuffer, uint32LE, List.cons_append,
      List.nil_append, List.getD_cons_zero, List.getD_cons_succ, h]
    decide

/-- Witness for C10 at baud 9600 with all three option fields absent. -/
theorem absent_options_defaults_witness :
    ((validateOptions ⟨9600, Option.none, Option.none, Option.none⟩ ≠
        Except.ok ()) ↔
      ¬∃ n : ℤ, (⟨9600, Option.none, Option.none, Option.none⟩ :
        SerialOptions).baudRate = (n : ℚ)) ∧
    (setLineCodingBuffer ⟨9600, Option.none, Option.none,
      Option.none⟩).getD 6 0 = 8 ∧
    (setLineCodingBuffer ⟨9600, Option.none, Option.none,
      Option.none⟩).getD 4 0 = 0 ∧
    (setLineCodingBuffer ⟨9600, Option.none, Option.none,
      Option.none⟩).getD 5 0 = 0 :=
  ⟨(absent_options_defaults ⟨9600, Option.none, Option.none,
      Option.none⟩).1 ⟨rfl, rfl, rfl⟩,
   (absent_options_defaults ⟨9600, Option.none, Option.none,
      Option.none⟩).2.1 rfl,
   (absent_options_defaults ⟨9600, Option.none, Option.none,
      Option.none⟩).2.2.1 rfl,
   (absent_options_defaults ⟨9600, Option.none, Option.none,
      Option.none⟩).2.2.2 rfl⟩
